import Mathlib

/-!
Shallow embedding of `crates/napi/src/bindgen_runtime/js_values/class.rs`:
the native-object lifetime bridge (type-tagged wrap, typed recovery,
finalization protocol, finalize-chain registry, instance factory).

Raw host handles (`napi_env`, `napi_value`, `napi_ref`, raw pointers) are
modelled as `Nat` addresses; runtime type ids (`std::any::TypeId`) as `Nat`
tags; host-call outcomes that the bridge merely branches on are oracle
parameters of the embedded functions.
-/

namespace NapiBridge

/-- Host status codes (`sys::Status`); only the constructors this file
distinguishes are modelled. -/
inductive Status where
  | napi_ok
  | invalidArg
  | genericFailure
  deriving DecidableEq, Repr

/-- Mirror of `crate::Error`: a status paired with a reason string. -/
structure Error where
  status : Status
  reason : String
  deriving DecidableEq, Repr

/-- Modelled from the spec: `TaggedObject<T>` (defined outside the shown file)
is a heap allocation owning an optional native payload together with the
static type id of `T`.  `from_napi_value` reads the type id at the start of
the allocation and the payload `Option`; `raw_finalize_unchecked` moves the
payload out with `unwrap`.  The payload is represented by its address. -/
structure TaggedObject (α : Type) where
  typeId : Nat
  object : Option α
  deriving DecidableEq, Repr

/-- Modelled from the spec: one `REFERENCE_MAP` entry — the value triple
`(key pointer, napi_ref to the wrapper, raw pointer to the shared
finalize-callback holder)`. -/
structure RefEntry where
  keyPtr : Nat
  refVal : Nat
  finalizeCallbacksPtr : Nat
  deriving DecidableEq, Repr

/-- Modelled from the spec: the process-wide finalize-chain registry
(`REFERENCE_MAP`, defined outside the shown file), a table keyed by
addresses.  Represented as an association list; insertion prepends, so the
most recent write for a key shadows older ones (last write wins). -/
abbrev Registry : Type := List (Nat × RefEntry)

/-- Removal from the registry (`reference_map.remove(&key)` in
`raw_finalize_unchecked`): returns the removed value, or `none` when the key
is absent, together with the remaining table. -/
def Registry.remove (k : Nat) : Registry → Option RefEntry × Registry
  | [] => (none, [])
  | (k', v) :: rest =>
    if k' = k then (some v, rest)
    else
      let r := Registry.remove k rest
      (r.fst, (k', v) :: r.snd)

/-- Registration (`Reference::add_ref`, defined outside the shown file;
modelled from the spec's `register`): inserts the entry for the key. -/
def Registry.addRef (k : Nat) (e : RefEntry) (reg : Registry) : Registry :=
  (k, e) :: reg

/-- Observable actions of one invocation of the finalization callback, in
order of occurrence. -/
inductive Event where
  | teardownRun
  | exceptionThrown
  | closureInvoked
  | referenceDeleted
  deriving DecidableEq, Repr

/-- Build configuration relevant to `raw_finalize_unchecked`: the strong-count
assertion is compiled only under `debug_assertions` on non-wasm targets, the
delete-status `debug_assert!` under `debug_assertions` alone. -/
structure BuildConfig where
  debugAssertions : Bool
  targetWasm : Bool
  deriving DecidableEq, Repr

/-- Result of one invocation of the finalization callback: whether it
panicked, the actions it performed (in order), and the registry afterwards. -/
structure FinalizeResult where
  panicked : Bool
  events : List Event
  registry : Registry
  deriving DecidableEq, Repr

/-- Shallow embedding of `raw_finalize_unchecked::<T>`.

`fin` is the user teardown `ObjectFinalize::finalize` of the payload;
`rcStrongCount` is the strong count of the reclaimed `Rc` holder at the
assertion site; `deleteReferenceStatus` is what `napi_delete_reference`
returns; `finalizeData` is the finalize-data pointer, used as the registry
key; `box` is the tagged allocation the pointer designates.

Source shape: `Box::from_raw` the data, `data.object.unwrap()` (panic when
the payload is empty), run user teardown — on error convert to `JsError`,
throw into the env and return; otherwise remove the registry entry for the
pointer — when absent, done; when present, assert the holder strong count is
1 or 2 (debug, non-wasm), invoke the extracted closure, call
`napi_delete_reference` and `debug_assert!` its status. -/
def raw_finalize_unchecked {α : Type} (fin : α → Except Error Unit)
    (cfg : BuildConfig) (rcStrongCount : Nat) (deleteReferenceStatus : Status)
    (finalizeData : Nat) (box : TaggedObject α) (registry : Registry) :
    FinalizeResult :=
  match box.object with
  | none => { panicked := true, events := [], registry := registry }
  | some v =>
    match fin v with
    | .error _ =>
      { panicked := false, events := [.teardownRun, .exceptionThrown],
        registry := registry }
    | .ok _ =>
      match Registry.remove finalizeData registry with
      | (none, reg) =>
        { panicked := false, events := [.teardownRun], registry := reg }
      | (some _, reg) =>
        if cfg.debugAssertions ∧ ¬cfg.targetWasm ∧
            ¬(rcStrongCount = 1 ∨ rcStrongCount = 2) then
          { panicked := true, events := [.teardownRun], registry := reg }
        else
          { panicked := cfg.debugAssertions ∧ deleteReferenceStatus ≠ .napi_ok,
            events := [.teardownRun, .closureInvoked, .referenceDeleted],
            registry := reg }

/-- Mirror of `ClassInstance<'env, T>`: the host value handle, the
environment handle, and the raw pointer to the live payload. -/
structure ClassInstance where
  value : Nat
  env : Nat
  inner : Nat
  deriving DecidableEq, Repr

/-- Mirror of `ClassInstance::new`: stores the three handles verbatim. -/
def ClassInstance.new (value env inner : Nat) : ClassInstance :=
  { value := value, env := env, inner := inner }

/-- Mirror of `Deref for ClassInstance`: returns the stored inner pointer. -/
def ClassInstance.deref (c : ClassInstance) : Nat := c.inner

/-- Mirror of `DerefMut for ClassInstance`.  The receiver is taken by mutable
reference in the source, so the embedding returns the borrowed pointer
together with the receiver's state after the call. -/
def ClassInstance.derefMut (c : ClassInstance) : Nat × ClassInstance :=
  (c.inner, c)

/-- Mirror of `AsRef<T> for ClassInstance`: returns the stored inner
pointer. -/
def ClassInstance.as_ref (c : ClassInstance) : Nat := c.inner

/-- Mirror of `NapiRaw for ClassInstance`: returns the stored host value. -/
def ClassInstance.raw (c : ClassInstance) : Nat := c.value

/-- Mirror of `ClassInstance::as_object`: builds an `Object` (modelled by its
`napi_value` handle) from the stored host value, without touching the
receiver. -/
def ClassInstance.as_object (c : ClassInstance) (_envArg : Nat) : Nat :=
  c.value

/-- Result of `from_napi_value`: the returned instance or error, plus whether
the recovered allocation was ever cast to `*mut TaggedObject<T>` (the typed
cast performed only inside the tag-match branch of the source). -/
structure RecoveryResult where
  result : Except Error ClassInstance
  castToTarget : Bool
  deriving Repr

/-- Shallow embedding of `FromNapiValue for ClassInstance<T>`
(`from_napi_value`).

`targetTypeId` and `targetTypeName` stand for `TypeId::of::<T>()` and
`type_name::<T>()`.  `unwrapped` is the outcome of `napi_unwrap`: `none`
when the host reports no attached pointer (with `unwrapFailStatus` the
status `check_status!` converts), otherwise the tagged allocation the
recovered pointer designates.

Source shape: unwrap; read the leading `TypeId` and compare to `T`'s; on a
match, cast to `*mut TaggedObject<T>` and require the payload `Option` to be
present, else fail `InvalidArg` "nothing attach"; on a mismatch fail
`InvalidArg` naming `type_name::<T>()`, without casting. -/
def from_napi_value (targetTypeId : Nat) (targetTypeName : String)
    (unwrapped : Option (TaggedObject Nat)) (unwrapFailStatus : Status)
    (env napiVal : Nat) : RecoveryResult :=
  match unwrapped with
  | none =>
    { result := .error ⟨unwrapFailStatus, ""⟩, castToTarget := false }
  | some box =>
    if box.typeId = targetTypeId then
      match box.object with
      | some objectAddr =>
        { result := .ok { value := napiVal, env := env, inner := objectAddr },
          castToTarget := true }
      | none =>
        { result := .error
            ⟨.invalidArg, "Invalid argument, nothing attach to js_object"⟩,
          castToTarget := true }
    else
      { result := .error
          ⟨.invalidArg, "Invalid argument, " ++ targetTypeName ++
            " on unwrap is not the type of wrapped object"⟩,
        castToTarget := false }

/-- Shallow embedding of `ClassInstance::assign_to_this`.

`setNamedPropertyOk` is the outcome of `napi_set_named_property`; a name
containing an interior NUL makes `CString::new` fail first (the exact reason
string of that conversion lives outside the shown file).  On success the
returned handle copies `value`, `env` and `inner` from the receiver. -/
def assign_to_this (c : ClassInstance) (name : String)
    (setNamedPropertyOk : Bool) (targetTypeName : String) :
    Except Error ClassInstance :=
  if name.toList.contains (Char.ofNat 0) then
    .error ⟨.genericFailure, "nul byte found in provided data"⟩
  else if setNamedPropertyOk then
    .ok { value := c.value, env := c.env, inner := c.inner }
  else
    .error
      ⟨.genericFailure,
        "Failed to assign ClassInstance<" ++ targetTypeName ++ "> to this"⟩

/-- Outcomes of the host calls `new_instance` performs, in program order:
`napi_get_reference_value`, `napi_new_instance`, `napi_wrap`. -/
structure HostCalls where
  getReferenceOk : Bool
  newInstanceOk : Bool
  wrapOk : Bool
  deriving DecidableEq, Repr

/-- Result of `new_instance`: the returned value or error, the value of the
call-scoped `___CALL_FROM_FACTORY` flag when the function returns, whether
the tagged box was allocated (`Box::into_raw`) and whether `napi_wrap`
succeeded in attaching it to the wrapper, and the registry afterwards. -/
structure FactoryResult where
  result : Except Error Nat
  callFromFactory : Bool
  boxAllocated : Bool
  boxAttached : Bool
  registry : Registry
  deriving Repr

/-- A tagged box is orphaned when it was allocated but no wrapper owns it:
nothing will ever free it or run its finalizer. -/
def FactoryResult.orphanedBox (r : FactoryResult) : Bool :=
  r.boxAllocated && !r.boxAttached

/-- Shallow embedding of `new_instance::<T>`.

`flag0` is the value of the thread-local `___CALL_FROM_FACTORY` flag on
entry.  `wrappedValue`, `resultValue`, `objectRef` and `holderPtr` stand for
the `wrapped_value` argument, the constructed `napi_value`, the `napi_ref`
produced by `napi_wrap`, and the raw pointer of the fresh finalize-callback
holder.

Source shape: look up the constructor reference (error names `T`); store
`true` into the flag; `napi_new_instance` — on failure the `?` returns with
an error naming `T` before the flag is reset; store `false`; allocate the
finalize-callback holder and the tagged box and `napi_wrap` them — on
failure the error names `T` and the already-allocated box is not freed;
finally `Reference::add_ref` registers the entry keyed by `wrapped_value`. -/
def new_instance (targetTypeName : String) (calls : HostCalls)
    (wrappedValue resultValue objectRef holderPtr : Nat) (flag0 : Bool)
    (registry : Registry) : FactoryResult :=
  if !calls.getReferenceOk then
    { result := .error
        ⟨.genericFailure, "Failed to get constructor reference of class `" ++
          targetTypeName ++ "`"⟩,
      callFromFactory := flag0, boxAllocated := false, boxAttached := false,
      registry := registry }
  else if !calls.newInstanceOk then
    { result := .error
        ⟨.genericFailure, "Failed to construct class `" ++
          targetTypeName ++ "`"⟩,
      callFromFactory := true, boxAllocated := false, boxAttached := false,
      registry := registry }
  else if !calls.wrapOk then
    { result := .error
        ⟨.genericFailure, "Failed to wrap native object of class `" ++
          targetTypeName ++ "`"⟩,
      callFromFactory := false, boxAllocated := true, boxAttached := false,
      registry := registry }
  else
    { result := .ok resultValue, callFromFactory := false,
      boxAllocated := true, boxAttached := true,
      registry := Registry.addRef wrappedValue
        { keyPtr := wrappedValue, refVal := objectRef,
          finalizeCallbacksPtr := holderPtr } registry }

/-- Example teardown that always succeeds, used by concrete witnesses. -/
def finOkExample : Nat → Except Error Unit := fun _ => .ok ()

/-- Example teardown that always fails, used by concrete witnesses. -/
def finErrExample : Nat → Except Error Unit :=
  fun _ => .error ⟨.genericFailure, "teardown failed"⟩

/-- Removing an absent key from the registry returns `none` and leaves the
table unchanged. -/
lemma Registry.remove_absent (k : Nat) (reg : Registry)
    (habs : ∀ p ∈ reg, p.1 ≠ k) : Registry.remove k reg = (none, reg) := by
  induction reg with
  | nil => rfl
  | cons hd tl ih =>
    have hhd : hd.1 ≠ k := habs hd (by simp)
    have htl : ∀ p ∈ tl, p.1 ≠ k := fun p hp => habs p (by simp [hp])
    rcases hd with ⟨k', v⟩
    simp only [Registry.remove, if_neg hhd, ih htl]

/-- Every invocation of the finalization callback performs each observable
action at most once: all branch event lists are duplicate-free. -/
lemma raw_finalize_unchecked_events_nodup {α : Type}
    (fin : α → Except Error Unit) (cfg : BuildConfig) (rc : Nat) (st : Status)
    (k : Nat) (box : TaggedObject α) (reg : Registry) :
    (raw_finalize_unchecked fin cfg rc st k box reg).events.Nodup := by
  unfold raw_finalize_unchecked
  rcases box with ⟨t, o⟩
  cases o with
  | none => simp
  | some v =>
    cases hfv : fin v with
    | error e => simp [hfv]
    | ok u =>
      rcases hr : Registry.remove k reg with ⟨o', reg'⟩
      cases o' with
      | none => simp [hfv, hr]
      | some entry =>
        simp only [hfv, hr]
        split <;> simp

/-- C1 (counterexample): contrary to the claim, a second invocation of the
finalize callback on a finalize-data pointer whose payload is already taken
does not short-circuit and return normally — `data.object.unwrap()` panics
on the empty payload. -/
theorem c1_second_finalize_counterexample :
    ¬((raw_finalize_unchecked (fun _ : Nat => Except.ok ())
        { debugAssertions := true, targetWasm := false } 1 .napi_ok 7
        { typeId := 0, object := none } []).panicked = false) := by
  decide

/-- C1 (amended): if the host invokes the finalize callback a second time on
the same finalize-data pointer, the second invocation finds the payload
already taken and panics at the payload unwrap (a programming-logic
violation) instead of returning normally, performing no observable action;
consequently the user teardown and the chained closure still execute at most
once per wrapper across both invocations. -/
theorem c1_second_finalize_panics_teardown_at_most_once {α : Type}
    (fin : α → Except Error Unit) (cfg cfg₂ : BuildConfig) (rc rc₂ : Nat)
    (st st₂ : Status) (k t : Nat) (box : TaggedObject α) (reg reg₂ : Registry) :
    (raw_finalize_unchecked fin cfg₂ rc₂ st₂ k
        { typeId := t, object := none } reg₂).panicked = true ∧
    (raw_finalize_unchecked fin cfg₂ rc₂ st₂ k
        { typeId := t, object := none } reg₂).events = [] ∧
    ((raw_finalize_unchecked fin cfg rc st k box reg).events ++
      (raw_finalize_unchecked fin cfg₂ rc₂ st₂ k
        { typeId := t, object := none } reg₂).events).count .teardownRun ≤ 1 ∧
    ((raw_finalize_unchecked fin cfg rc st k box reg).events ++
      (raw_finalize_unchecked fin cfg₂ rc₂ st₂ k
        { typeId := t, object := none } reg₂).events).count .closureInvoked ≤ 1 := by
  have hsecond : raw_finalize_unchecked fin cfg₂ rc₂ st₂ k
      { typeId := t, object := none } reg₂ =
      { panicked := true, events := [], registry := reg₂ } := by
    simp [raw_finalize_unchecked]
  have hnodup := raw_finalize_unchecked_events_nodup fin cfg rc st k box reg
  refine ⟨by rw [hsecond], by rw [hsecond], ?_, ?_⟩ <;>
    simpa [hsecond] using List.nodup_iff_count_le_one.1 hnodup _

/-- C3: when the user teardown reports an error during finalization, the
error is thrown into the host environment and the callback stops: the
registry is left untouched (the entry is not removed), the chained closure
does not run, and the native reference handle is not released. -/
theorem c3_teardown_error_halts_protocol {α : Type}
    (fin : α → Except Error Unit) (v : α) (e : Error) (cfg : BuildConfig)
    (rc : Nat) (st : Status) (k t : Nat) (reg : Registry)
    (hf : fin v = .error e) :
    raw_finalize_unchecked fin cfg rc st k { typeId := t, object := some v }
        reg =
      { panicked := false, events := [.teardownRun, .exceptionThrown],
        registry := reg } ∧
    .closureInvoked ∉ (raw_finalize_unchecked fin cfg rc st k
        { typeId := t, object := some v } reg).events ∧
    .referenceDeleted ∉ (raw_finalize_unchecked fin cfg rc st k
        { typeId := t, object := some v } reg).events := by
  have h : raw_finalize_unchecked fin cfg rc st k
      { typeId := t, object := some v } reg =
      { panicked := false, events := [.teardownRun, .exceptionThrown],
        registry := reg } := by
    simp [raw_finalize_unchecked, hf]
  refine ⟨h, ?_, ?_⟩ <;> rw [h] <;> simp

/-- C3 witness: at a concrete failing teardown with a registry entry present
for the key, the callback throws and leaves the registry entry in place. -/
theorem c3_teardown_error_halts_protocol_witness :
    finErrExample 0 = .error ⟨.genericFailure, "teardown failed"⟩ ∧
    (raw_finalize_unchecked finErrExample
        { debugAssertions := true, targetWasm := false } 1 .napi_ok 7
        { typeId := 0, object := some 0 } [(7, ⟨7, 11, 12⟩)] =
      { panicked := false, events := [.teardownRun, .exceptionThrown],
        registry := [(7, ⟨7, 11, 12⟩)] } ∧
    Event.closureInvoked ∉ (raw_finalize_unchecked finErrExample
        { debugAssertions := true, targetWasm := false } 1 .napi_ok 7
        { typeId := 0, object := some 0 } [(7, ⟨7, 11, 12⟩)]).events ∧
    Event.referenceDeleted ∉ (raw_finalize_unchecked finErrExample
        { debugAssertions := true, targetWasm := false } 1 .napi_ok 7
        { typeId := 0, object := some 0 } [(7, ⟨7, 11, 12⟩)]).events) :=
  ⟨rfl, c3_teardown_error_halts_protocol finErrExample 0
    ⟨.genericFailure, "teardown failed"⟩
    { debugAssertions := true, targetWasm := false } 1 .napi_ok 7 0
    [(7, ⟨7, 11, 12⟩)] rfl⟩

/-- C6: removing an already-removed or never-registered key from the
finalize-chain registry yields `none` rather than an error, and the
finalization callback then completes normally without invoking any chained
closure and without releasing any reference handle. -/
theorem c6_absent_registry_key_is_benign {α : Type}
    (fin : α → Except Error Unit) (v : α) (cfg : BuildConfig) (rc : Nat)
    (st : Status) (k t : Nat) (reg : Registry)
    (habs : ∀ p ∈ reg, p.1 ≠ k) (hok : fin v = .ok ()) :
    Registry.remove k reg = (none, reg) ∧
    raw_finalize_unchecked fin cfg rc st k { typeId := t, object := some v }
        reg =
      { panicked := false, events := [.teardownRun], registry := reg } := by
  have hrem := Registry.remove_absent k reg habs
  exact ⟨hrem, by simp [raw_finalize_unchecked, hok, hrem]⟩

/-- C6 witness: a concrete registry whose only entry is under a different
key: removal of the absent key returns `none` and the callback completes
with only the user teardown having run. -/
theorem c6_absent_registry_key_is_benign_witness :
    Registry.remove 7 [(3, ⟨3, 11, 12⟩)] = (none, [(3, ⟨3, 11, 12⟩)]) ∧
    raw_finalize_unchecked (fun _ : Nat => Except.ok ())
        { debugAssertions := true, targetWasm := false } 1 .napi_ok 7
        { typeId := 0, object := some 0 } [(3, ⟨3, 11, 12⟩)] =
      { panicked := false, events := [.teardownRun],
        registry := [(3, ⟨3, 11, 12⟩)] } :=
  c6_absent_registry_key_is_benign _ 0 _ 1 .napi_ok 7 0 _
    (by decide) rfl

/-- C7: when the callback finds a registry entry and reclaims the shared
chain holder, (a) under `debug_assertions` on a non-wasm target, a
non-panicking run implies the holder strong count was 1 or 2; (b) whenever
the count is 1 or 2 the deferred closure is invoked exactly once, before the
native reference handle is released; (c) without `debug_assertions` the
callback's behaviour does not depend on the strong count at all — the check
exists only in debug builds. -/
theorem c7_holder_count_invariant {α : Type} (fin : α → Except Error Unit)
    (v : α) (rc : Nat) (st : Status) (k t : Nat) (reg : Registry)
    (entry : RefEntry) (hok : fin v = .ok ())
    (hrem : (Registry.remove k reg).fst = some entry) :
    ((raw_finalize_unchecked fin { debugAssertions := true, targetWasm := false }
        rc st k { typeId := t, object := some v } reg).panicked = false →
      rc = 1 ∨ rc = 2) ∧
    (∀ cfg : BuildConfig, rc = 1 ∨ rc = 2 →
      (raw_finalize_unchecked fin cfg rc st k
          { typeId := t, object := some v } reg).events =
        [.teardownRun, .closureInvoked, .referenceDeleted] ∧
      (raw_finalize_unchecked fin cfg rc st k
          { typeId := t, object := some v } reg).events.count
        .closureInvoked = 1) ∧
    (∀ (wasm : Bool) (rc₁ rc₂ : Nat),
      raw_finalize_unchecked fin
        { debugAssertions := false, targetWasm := wasm } rc₁ st k
        { typeId := t, object := some v } reg =
      raw_finalize_unchecked fin
        { debugAssertions := false, targetWasm := wasm } rc₂ st k
        { typeId := t, object := some v } reg) := by
  rcases hr : Registry.remove k reg with ⟨o, reg'⟩
  rw [hr] at hrem
  subst hrem
  refine ⟨?_, ?_, ?_⟩
  · intro hpan
    by_contra hbad
    rw [not_or] at hbad
    simp [raw_finalize_unchecked, hok, hr, hbad.1, hbad.2] at hpan
  · intro cfg hrc
    have hcond : ¬(cfg.debugAssertions = true ∧ cfg.targetWasm = false ∧
        ¬rc = 1 ∧ ¬rc = 2) := by
      rintro ⟨-, -, h1, h2⟩
      rcases hrc with h | h
      · exact h1 h
      · exact h2 h
    have hev : (raw_finalize_unchecked fin cfg rc st k
        { typeId := t, object := some v } reg).events =
        [.teardownRun, .closureInvoked, .referenceDeleted] := by
      simp [raw_finalize_unchecked, hok, hr, hcond]
    refine ⟨hev, ?_⟩
    rw [hev]
    decide
  · intro wasm rc₁ rc₂
    simp [raw_finalize_unchecked, hok, hr]

/-- C7 witness: concrete run with one registry entry under the key, strong
count 2, in a debug build: the run does not panic (so the count is 1 or 2),
the closure fires exactly once before the reference is deleted, and a
release build ignores the count. -/
theorem c7_holder_count_invariant_witness :
    ((raw_finalize_unchecked (fun _ : Nat => Except.ok ())
        { debugAssertions := true, targetWasm := false } 2 .napi_ok 7
        { typeId := 0, object := some 0 } [(7, ⟨7, 11, 12⟩)]).panicked =
          false → (2 : Nat) = 1 ∨ (2 : Nat) = 2) ∧
    (∀ cfg : BuildConfig, (2 : Nat) = 1 ∨ (2 : Nat) = 2 →
      (raw_finalize_unchecked (fun _ : Nat => Except.ok ()) cfg 2 .napi_ok 7
          { typeId := 0, object := some 0 } [(7, ⟨7, 11, 12⟩)]).events =
        [.teardownRun, .closureInvoked, .referenceDeleted] ∧
      (raw_finalize_unchecked (fun _ : Nat => Except.ok ()) cfg 2 .napi_ok 7
          { typeId := 0, object := some 0 } [(7, ⟨7, 11, 12⟩)]).events.count
        .closureInvoked = 1) ∧
    (∀ (wasm : Bool) (rc₁ rc₂ : Nat),
      raw_finalize_unchecked (fun _ : Nat => Except.ok ())
        { debugAssertions := false, targetWasm := wasm } rc₁ .napi_ok 7
        { typeId := 0, object := some 0 } [(7, ⟨7, 11, 12⟩)] =
      raw_finalize_unchecked (fun _ : Nat => Except.ok ())
        { debugAssertions := false, targetWasm := wasm } rc₂ .napi_ok 7
        { typeId := 0, object := some 0 } [(7, ⟨7, 11, 12⟩)]) :=
  c7_holder_count_invariant _ 0 2 .napi_ok 7 0 [(7, ⟨7, 11, 12⟩)]
    ⟨7, 11, 12⟩ rfl rfl

/-- C2: recovering a `ClassInstance` of type `B` from a host value whose
attached tagged box carries a different type tag fails with an
invalid-argument error whose message names the expected type `B`, and the
recovered allocation is never cast to (nor dereferenced as) `B`'s box
type. -/
theorem c2_type_mismatch_is_rejected_without_cast (tagB : Nat)
    (nameB : String) (box : TaggedObject Nat) (st : Status)
    (env napiVal : Nat) (hne : box.typeId ≠ tagB) :
    ∃ pre post,
      (from_napi_value tagB nameB (some box) st env napiVal).result =
        .error ⟨.invalidArg, pre ++ nameB ++ post⟩ ∧
      (from_napi_value tagB nameB (some box) st env napiVal).castToTarget =
        false := by
  refine ⟨"Invalid argument, ",
    " on unwrap is not the type of wrapped object", ?_, ?_⟩ <;>
    simp [from_napi_value, hne]

/-- C2 witness: a box tagged for type id 1 recovered as type id 2 named
"B". -/
theorem c2_type_mismatch_is_rejected_without_cast_witness :
    ∃ pre post,
      (from_napi_value 2 "B" (some { typeId := 1, object := some 5 })
          .genericFailure 0 0).result =
        .error ⟨.invalidArg, pre ++ "B" ++ post⟩ ∧
      (from_napi_value 2 "B" (some { typeId := 1, object := some 5 })
          .genericFailure 0 0).castToTarget = false :=
  c2_type_mismatch_is_rejected_without_cast 2 "B"
    { typeId := 1, object := some 5 } .genericFailure 0 0 (by decide)

/-- C5: when the tag matches but the tagged box's payload is already empty
(finalized), recovery fails with an invalid-argument error saying nothing is
attached to the object, and no instance is returned. -/
theorem c5_empty_payload_is_rejected (tag : Nat) (nameT : String)
    (st : Status) (env napiVal : Nat) :
    (from_napi_value tag nameT (some { typeId := tag, object := none }) st
        env napiVal).result =
      .error ⟨.invalidArg, "Invalid argument, nothing attach to js_object"⟩ ∧
    ∀ c : ClassInstance,
      (from_napi_value tag nameT (some { typeId := tag, object := none }) st
        env napiVal).result ≠ .ok c := by
  constructor
  · simp [from_napi_value]
  · intro c
    simp [from_napi_value]

/-- C4 (counterexample): contrary to the claim, when `napi_wrap` fails the
already-allocated tagged box is left orphaned — allocated but attached to no
wrapper, so nothing will free it. -/
theorem c4_wrap_failure_orphans_box_counterexample :
    ¬((new_instance "T" ⟨true, true, false⟩ 1 2 3 4 false []).orphanedBox =
      false) := by
  decide

/-- C4 (amended): if any host call in `new_instance` fails, the function
returns an error whose message names the target type, the registry is left
unchanged — `Reference::add_ref` runs only after all host calls succeed —
but a tagged box is left orphaned exactly when the failing call is
`napi_wrap` (the box allocated for the wrap call is never freed). -/
theorem c4_factory_failure_propagates (tn : String) (calls : HostCalls)
    (w r o hp : Nat) (flag0 : Bool) (reg : Registry)
    (hfail : calls.getReferenceOk = false ∨ calls.newInstanceOk = false ∨
      calls.wrapOk = false) :
    (∃ e pre post,
      (new_instance tn calls w r o hp flag0 reg).result = .error e ∧
      e.reason = pre ++ tn ++ post) ∧
    (new_instance tn calls w r o hp flag0 reg).registry = reg ∧
    ((new_instance tn calls w r o hp flag0 reg).orphanedBox = true ↔
      (calls.getReferenceOk = true ∧ calls.newInstanceOk = true ∧
        calls.wrapOk = false)) := by
  rcases calls with ⟨g, n, wr⟩
  cases g with
  | false =>
    exact ⟨⟨⟨.genericFailure,
        "Failed to get constructor reference of class `" ++ tn ++ "`"⟩,
      "Failed to get constructor reference of class `", "`", rfl, rfl⟩,
      rfl, by simp [new_instance, FactoryResult.orphanedBox]⟩
  | true =>
    cases n with
    | false =>
      exact ⟨⟨⟨.genericFailure, "Failed to construct class `" ++ tn ++ "`"⟩,
        "Failed to construct class `", "`", rfl, rfl⟩,
        rfl, by simp [new_instance, FactoryResult.orphanedBox]⟩
    | true =>
      cases wr with
      | false =>
        exact ⟨⟨⟨.genericFailure,
            "Failed to wrap native object of class `" ++ tn ++ "`"⟩,
          "Failed to wrap native object of class `", "`", rfl, rfl⟩,
          rfl, by simp [new_instance, FactoryResult.orphanedBox]⟩
      | true =>
        rcases hfail with h | h | h <;> cases h

/-- C4 witness: concrete constructor-lookup failure — the error names the
type and the registry stays empty; no box was allocated in that case. -/
theorem c4_factory_failure_propagates_witness :
    (∃ e pre post,
      (new_instance "T" ⟨false, true, true⟩ 1 2 3 4 false []).result =
        .error e ∧
      e.reason = pre ++ "T" ++ post) ∧
    (new_instance "T" ⟨false, true, true⟩ 1 2 3 4 false []).registry = [] ∧
    ((new_instance "T" ⟨false, true, true⟩ 1 2 3 4 false []).orphanedBox =
        true ↔
      ((false : Bool) = true ∧ (true : Bool) = true ∧
        (true : Bool) = false)) :=
  c4_factory_failure_propagates "T" ⟨false, true, true⟩
    1 2 3 4 false [] (Or.inl rfl)

/-- C9 (counterexample): contrary to the claim, the called-from-factory flag
is not restored on every return path — when `napi_new_instance` fails, the
early return leaves the flag `true` although it was `false` on entry. -/
theorem c9_flag_leaks_on_construct_failure_counterexample :
    (new_instance "T" ⟨true, false, true⟩ 1 2 3 4 false []).callFromFactory =
      true := by
  decide

/-- C9 (amended): the called-from-factory flag is set to `true` immediately
before the host constructor invocation and reset to `false` only after a
successful construction: on exit it is `true` exactly when the constructor
call was reached and failed, it is the entry value when the constructor
lookup failed first, and `false` otherwise. -/
theorem c9_flag_restored_only_on_success (tn : String) (calls : HostCalls)
    (w r o hp : Nat) (flag0 : Bool) (reg : Registry) :
    (new_instance tn calls w r o hp flag0 reg).callFromFactory =
      cond calls.getReferenceOk (!calls.newInstanceOk) flag0 := by
  rcases calls with ⟨g, n, wr⟩
  cases g <;> cases n <;> cases wr <;> rfl

/-- C8: when `assign_to_this` succeeds, the returned handle carries the same
host value, the same environment and the same raw payload pointer as the
receiver. -/
theorem c8_assign_to_this_preserves_handle (c c' : ClassInstance)
    (name : String) (setOk : Bool) (tn : String)
    (h : assign_to_this c name setOk tn = .ok c') :
    c'.value = c.value ∧ c'.env = c.env ∧ c'.inner = c.inner := by
  unfold assign_to_this at h
  split_ifs at h
  simp only [Except.ok.injEq] at h
  subst h
  exact ⟨rfl, rfl, rfl⟩

/-- C8 witness: a concrete successful assignment returns a handle with the
same three fields. -/
theorem c8_assign_to_this_preserves_handle_witness :
    assign_to_this (ClassInstance.new 1 2 3) "prop" true "T" =
      .ok (ClassInstance.new 1 2 3) ∧
    ((ClassInstance.new 1 2 3).value = (ClassInstance.new 1 2 3).value ∧
      (ClassInstance.new 1 2 3).env = (ClassInstance.new 1 2 3).env ∧
      (ClassInstance.new 1 2 3).inner = (ClassInstance.new 1 2 3).inner) :=
  ⟨rfl, c8_assign_to_this_preserves_handle (ClassInstance.new 1 2 3)
    (ClassInstance.new 1 2 3) "prop" true "T" rfl⟩

/-- C10: `Deref`, `DerefMut` and `AsRef` all return the raw inner pointer
stored at creation (`ClassInstance::new`) or recovery (`from_napi_value`);
`DerefMut` leaves the handle unchanged, and `raw`/`as_object` only read the
stored host value — no operation changes the handle's `value`, `env` or
`inner` fields. -/
theorem c10_accessors_return_stored_pointer (v e p tag : Nat) (tn : String)
    (st : Status) (envH napiVal : Nat) (c : ClassInstance) :
    (ClassInstance.new v e p).deref = p ∧
    (ClassInstance.new v e p).as_ref = p ∧
    ((ClassInstance.new v e p).derefMut).fst = p ∧
    c.deref = c.inner ∧
    c.as_ref = c.inner ∧
    (c.derefMut).fst = c.inner ∧
    (c.derefMut).snd = c ∧
    c.raw = c.value ∧
    c.as_object envH = c.value ∧
    (from_napi_value tag tn (some { typeId := tag, object := some p }) st
        envH napiVal).result = .ok { value := napiVal, env := envH, inner := p } ∧
    ({ value := napiVal, env := envH, inner := p } : ClassInstance).deref =
      p := by
  refine ⟨rfl, rfl, rfl, rfl, rfl, rfl, rfl, rfl, rfl, ?_, rfl⟩
  simp [from_napi_value]

end NapiBridge
